import Mathlib

/-!
Shallow embedding of the `setu` frontend voice-capture components and API
route handlers.

The repository contains two variants of the `VoiceInput` React component:

* variant A ("review" variant, first document in `VoiceInput.tsx`): after the
  recorder stops, the assembled blob is put into review state and submission
  is triggered by an explicit user action; a failed submission returns to
  `review` kebeping the blob.
* variant B ("auto-submit" variant, second document): the `onstop` handler
  assembles the blob and immediately calls `submitRecording`; a failed
  submission returns to `idle`.

Each React event handler is translated to a pure state transformer on a
record that carries the component's `useState` values and `useRef` cells.
Browser resources (the `setInterval` timer and the `getUserMedia` stream)
are tracked with explicit ghost counters so that "active timer" and "active
stream" are stateable.  The `async` function `submitRecording` is split at
its `await fetch` suspension point into `submitStart` (the code before the
await: the null-blob guard, the state changes and the request that is sent)
and `submitResponse` (the continuation that runs when the response
arrives).  Route handlers (both exported as `POST` in the source) are
embedded as `publishPOST` and `voicePOST`, with the backend abstracted as a
function argument.
-/

namespace Setu

/-- JavaScript truthiness of a `string | null` value: `null` and the empty
string are falsy. -/
def jsTruthy : Option String → Bool
  | none => false
  | some s => s ≠ ""

/-- JavaScript `x || d` on a `string | null` value `x`: returns `x` when it
is truthy, otherwise the default `d`. -/
def jsOr (x : Option String) (d : String) : String :=
  match x with
  | some s => if s ≠ "" then s else d
  | none => d

/-- The `Response.ok` predicate of the fetch API: status in the range
200–299. -/
def respOk (status : Nat) : Bool :=
  200 ≤ status && status ≤ 299

/-- A browser `Blob`: its byte content and its MIME type string. -/
structure JsBlob where
  bytes : List Nat
  btype : String
deriving DecidableEq

/-- Size of a blob (`Blob.size`). -/
def JsBlob.size (b : JsBlob) : Nat := b.bytes.length

/-- The `language` prop of the component (`'en' | 'hi'`). -/
inductive Lang
  | en
  | hi
deriving DecidableEq

/-- The string value of the language tag, as appended to the form data. -/
def langCode : Lang → String
  | .en => "en"
  | .hi => "hi"

/-- The localized strings of the `content` map that the component logic
reads (the remaining entries are pure UI labels). -/
structure Content where
  permissionDenied : String
  notSupported : String
  recordingError : String
deriving DecidableEq

/-- The `content[language]` lookup; both component variants use these same
three strings. -/
def content : Lang → Content
  | .en =>
    ⟨"Microphone access denied. Please enable it in your browser settings.",
     "Voice recording is not supported in this browser.",
     "Recording failed. Please try again."⟩
  | .hi =>
    ⟨"Microphone access denied है। Browser settings में enable करें।",
     "इस browser में voice recording support नहीं है।",
     "Recording fail हुई। फिर से try करें।"⟩

/-- The ordered MIME type preference list of `startRecording`. -/
def mimeTypes : List String :=
  ["audio/webm;codecs=opus", "audio/webm", "audio/mp4", "audio/ogg;codecs=opus"]

/-- The `for … break` loop of `startRecording`: `mimeType` starts as `''`
and is set to the first list element the `MediaRecorder.isTypeSupported`
probe accepts. -/
def pickMime (probe : String → Bool) : List String → String
  | [] => ""
  | t :: ts => if probe t then t else pickMime probe ts

/-- The loop computes the first probe-accepted element of the list (and `''`
when there is none). -/
theorem pickMime_eq_find (probe : String → Bool) (l : List String) :
    pickMime probe l = (l.find? probe).getD "" := by
  induction l with
  | nil => rfl
  | cons t ts ih =>
    by_cases h : probe t
    · simp [pickMime, List.find?, h]
    · simp [pickMime, List.find?, h, ih]

/-- The `new Blob(chunks, { type: mimeType || 'audio/webm' })` call in the
`onstop` handlers: concatenates the chunk bytes in delivery order. -/
def assembleBlob (mime : String) (chunks : List JsBlob) : JsBlob :=
  ⟨(chunks.map JsBlob.bytes).flatten, if mime ≠ "" then mime else "audio/webm"⟩

/-- The state of a `MediaRecorder` object. -/
inductive MRState
  | inactive
  | recording
  | paused
deriving DecidableEq

/-- The `MediaRecorder` held in `mediaRecorderRef`: its state and the MIME
type it was created with (`''` when the constructor options were
`undefined`). -/
structure Recorder where
  mrState : MRState
  mimeType : String
deriving DecidableEq

/-- The outcome of `navigator.mediaDevices.getUserMedia`: either a stream or
a thrown error, distinguished by whether `err.name === 'NotAllowedError'`. -/
inductive GumError
  | notAllowed
  | other
deriving DecidableEq

/-- The body of a JSON response, as the component and the voice route read
it: each field is absent or a string. -/
structure ApiBody where
  normalized_text : Option String := none
  error : Option String := none
  detail : Option String := none
deriving DecidableEq

/-- The outcome of `await fetch(…)` followed by `await response.json()`:
either a status with a parsed body, or a thrown error (network failure or
JSON parse failure), which lands in the `catch` block. -/
inductive FetchOutcome
  | success (status : Nat) (data : ApiBody)
  | failure
deriving DecidableEq

/-- The multipart request `submitRecording` sends to `/api/voice`. -/
structure Request where
  audio : JsBlob
  filename : String
  language : String
deriving DecidableEq

end Setu

namespace Setu.VA

/-- The view state of variant A: `'idle' | 'recording' | 'review' |
'processing'`. -/
inductive RecState
  | idle
  | recording
  | review
  | processing
deriving DecidableEq

/-- The state of one mounted variant-A component: the `useState` values,
the `useRef` cells, and ghost counters for the browser resources.
`timerSet` models `timerRef.current !== null`; `liveTimers` counts the
intervals created by `setInterval` and not yet cleared; `recStreamLive`
says whether the stream captured by the current recorder's closures is
still live, and `leakedStreams` counts live streams of recorders that were
replaced. -/
structure Comp where
  state : RecState
  error : String
  recordingTime : Nat
  audioUrl : Option JsBlob
  isPlaying : Bool
  mediaRecorder : Option Recorder
  audioChunks : List JsBlob
  timerSet : Bool
  liveTimers : Nat
  audioBlob : Option JsBlob
  recStreamLive : Bool
  leakedStreams : Nat
deriving DecidableEq

/-- The component state right after mount. -/
def init : Comp :=
  ⟨.idle, "", 0, none, false, none, [], false, 0, none, false, 0⟩

/-- Total count of live `getUserMedia` streams. -/
def Comp.liveStreams (c : Comp) : Nat :=
  c.leakedStreams + (if c.recStreamLive then 1 else 0)

/-- The `if (timerRef.current) { clearInterval(…); timerRef.current = null }`
idiom. -/
def clearTimer (c : Comp) : Comp :=
  if c.timerSet then
    { c with timerSet := false, liveTimers := c.liveTimers - 1 }
  else c

/-- The `startRecording` handler.  `mediaDevicesOk` is the
`navigator.mediaDevices && navigator.mediaDevices.getUserMedia` support
check, `gum` the outcome of the `getUserMedia` call, `probe` the
`MediaRecorder.isTypeSupported` predicate.  On the success path a recorder
is created (with MIME options only when the loop found a supported type),
the chunk buffer is emptied, recording starts, and a fresh interval timer
is installed without clearing a previously installed one. -/
def startRecording (lang : Lang) (mediaDevicesOk : Bool)
    (gum : Except GumError Unit) (probe : String → Bool) (c : Comp) : Comp :=
  let c0 := { c with error := "" }
  if !mediaDevicesOk then
    { c0 with error := (content lang).notSupported }
  else
    match gum with
    | .error .notAllowed => { c0 with error := (content lang).permissionDenied }
    | .error .other => { c0 with error := (content lang).recordingError }
    | .ok _ =>
      let mime := pickMime probe mimeTypes
      { c0 with
        mediaRecorder := some ⟨.recording, mime⟩,
        audioChunks := [],
        leakedStreams := c0.leakedStreams + (if c0.recStreamLive then 1 else 0),
        recStreamLive := true,
        state := .recording,
        recordingTime := 0,
        liveTimers := c0.liveTimers + 1,
        timerSet := true }

/-- The `ondataavailable` handler: appends the event's blob to the chunk
buffer when its size is positive. -/
def ondataavailable (c : Comp) (d : JsBlob) : Comp :=
  if d.size > 0 then { c with audioChunks := c.audioChunks ++ [d] } else c

/-- The `onstop` closure of the recorder created with MIME type `mime`:
stops the captured stream's tracks, assembles the buffered chunks into one
blob, stores it in `audioBlobRef`, creates a playback URL for it, and moves
to `review`. -/
def onstop (mime : String) (c : Comp) : Comp :=
  let blob := assembleBlob mime c.audioChunks
  { c with
    recStreamLive := false,
    audioBlob := some blob,
    audioUrl := some blob,
    state := .review }

/-- The `onerror` closure: reports the recording error and returns to
`idle`.  It touches neither the timer nor the stream. -/
def onerror (lang : Lang) (c : Comp) : Comp :=
  { c with error := (content lang).recordingError, state := .idle }

/-- The `stopRecording` handler: clears the interval timer, then stops the
current recorder when it is not inactive (the browser will then fire its
`onstop` event). -/
def stopRecording (c : Comp) : Comp :=
  let c1 := clearTimer c
  match c1.mediaRecorder with
  | some r =>
    if r.mrState = .inactive then c1
    else { c1 with mediaRecorder := some ⟨.inactive, r.mimeType⟩ }
  | none => c1

/-- The `resetRecording` handler: revokes the playback URL, stops playback,
zeroes the elapsed time, clears the assembled blob reference and returns to
`idle`. -/
def resetRecording (c : Comp) : Comp :=
  { c with
    audioUrl := none,
    isPlaying := false,
    recordingTime := 0,
    audioBlob := none,
    state := .idle }

/-- The part of `submitRecording` before `await fetch`: the null-blob guard
returns unchanged with no request; otherwise the component moves to
`processing`, the error is cleared, and a multipart request with the blob
(filename `recording.webm`) and the language tag is sent. -/
def submitStart (lang : Lang) (c : Comp) : Comp × Option Request :=
  match c.audioBlob with
  | none => (c, none)
  | some b =>
    ({ c with state := .processing, error := "" },
     some ⟨b, "recording.webm", langCode lang⟩)

/-- The continuation of `submitRecording` from `await response.json()` on:
on an ok status with a truthy `normalized_text` it invokes the caller's
`onTranscription` callback with that text and resets the session; otherwise
it surfaces `data.error || 'Transcription failed'` and returns to `review`;
a thrown fetch or parse error surfaces the generic failure string.  The
returned list collects the callback invocations. -/
def submitResponse (c : Comp) (r : FetchOutcome) : Comp × List String :=
  match r with
  | .failure =>
    ({ c with error := "Failed to process recording", state := .review }, [])
  | .success status data =>
    if respOk status && jsTruthy data.normalized_text then
      (resetRecording c, [data.normalized_text.getD ""])
    else
      ({ c with error := jsOr data.error "Transcription failed",
                state := .review }, [])

/-- The `useEffect` cleanup run at unmount: clears the timer and stops a
non-inactive recorder (revoking the object URL does not change the model
state we track). -/
def unmountCleanup (c : Comp) : Comp :=
  let c1 := clearTimer c
  match c1.mediaRecorder with
  | some r =>
    if r.mrState = .inactive then c1
    else { c1 with mediaRecorder := some ⟨.inactive, r.mimeType⟩ }
  | none => c1

end Setu.VA

namespace Setu.VB

/-- The view state of variant B: `'idle' | 'recording' | 'paused' |
'processing'`. -/
inductive RecState
  | idle
  | recording
  | paused
  | processing
deriving DecidableEq

/-- The state of one mounted variant-B component; same reading of the
fields as in variant A, minus the playback state (variant B has no review
phase). -/
structure Comp where
  state : RecState
  error : String
  recordingTime : Nat
  mediaRecorder : Option Recorder
  audioChunks : List JsBlob
  timerSet : Bool
  liveTimers : Nat
  audioBlob : Option JsBlob
  recStreamLive : Bool
  leakedStreams : Nat
deriving DecidableEq

/-- The component state right after mount. -/
def init : Comp :=
  ⟨.idle, "", 0, none, [], false, 0, none, false, 0⟩

/-- Total count of live `getUserMedia` streams. -/
def Comp.liveStreams (c : Comp) : Nat :=
  c.leakedStreams + (if c.recStreamLive then 1 else 0)

/-- The `if (timerRef.current) { clearInterval(…); timerRef.current = null }`
idiom. -/
def clearTimer (c : Comp) : Comp :=
  if c.timerSet then
    { c with timerSet := false, liveTimers := c.liveTimers - 1 }
  else c

/-- The `startRecording` handler of variant B; identical logic to variant
A's. -/
def startRecording (lang : Lang) (mediaDevicesOk : Bool)
    (gum : Except GumError Unit) (probe : String → Bool) (c : Comp) : Comp :=
  let c0 := { c with error := "" }
  if !mediaDevicesOk then
    { c0 with error := (content lang).notSupported }
  else
    match gum with
    | .error .notAllowed => { c0 with error := (content lang).permissionDenied }
    | .error .other => { c0 with error := (content lang).recordingError }
    | .ok _ =>
      let mime := pickMime probe mimeTypes
      { c0 with
        mediaRecorder := some ⟨.recording, mime⟩,
        audioChunks := [],
        leakedStreams := c0.leakedStreams + (if c0.recStreamLive then 1 else 0),
        recStreamLive := true,
        state := .recording,
        recordingTime := 0,
        liveTimers := c0.liveTimers + 1,
        timerSet := true }

/-- The `ondataavailable` handler: appends the event's blob to the chunk
buffer when its size is positive. -/
def ondataavailable (c : Comp) (d : JsBlob) : Comp :=
  if d.size > 0 then { c with audioChunks := c.audioChunks ++ [d] } else c

/-- The `pauseRecording` handler: when the recorder is recording, pauses
it, moves to `paused` and clears the interval timer. -/
def pauseRecording (c : Comp) : Comp :=
  match c.mediaRecorder with
  | some r =>
    if r.mrState = .recording then
      clearTimer { c with mediaRecorder := some ⟨.paused, r.mimeType⟩,
                          state := .paused }
    else c
  | none => c

/-- The `resumeRecording` handler: when the recorder is paused, resumes it,
moves to `recording` and installs a fresh interval timer. -/
def resumeRecording (c : Comp) : Comp :=
  match c.mediaRecorder with
  | some r =>
    if r.mrState = .paused then
      { c with mediaRecorder := some ⟨.recording, r.mimeType⟩,
               state := .recording,
               liveTimers := c.liveTimers + 1,
               timerSet := true }
    else c
  | none => c

/-- The `finishRecording` handler: clears the interval timer, then stops
the current recorder when it is not inactive. -/
def finishRecording (c : Comp) : Comp :=
  let c1 := clearTimer c
  match c1.mediaRecorder with
  | some r =>
    if r.mrState = .inactive then c1
    else { c1 with mediaRecorder := some ⟨.inactive, r.mimeType⟩ }
  | none => c1

/-- The part of `submitRecording` before `await fetch`; same logic as
variant A's. -/
def submitStart (lang : Lang) (c : Comp) : Comp × Option Request :=
  match c.audioBlob with
  | none => (c, none)
  | some b =>
    ({ c with state := .processing, error := "" },
     some ⟨b, "recording.webm", langCode lang⟩)

/-- The `onstop` closure of variant B: stops the captured stream's tracks,
assembles the chunks into a blob, stores it in `audioBlobRef`, and
auto-submits by calling `submitRecording`. -/
def onstop (mime : String) (lang : Lang) (c : Comp) : Comp × Option Request :=
  submitStart lang
    { c with
      recStreamLive := false,
      audioBlob := some (assembleBlob mime c.audioChunks) }

/-- The `onerror` closure of variant B: reports the recording error and
returns to `idle`, touching neither the timer nor the stream. -/
def onerror (lang : Lang) (c : Comp) : Comp :=
  { c with error := (content lang).recordingError, state := .idle }

/-- The continuation of `submitRecording` from `await response.json()` on:
on an ok status with a truthy `normalized_text` it invokes the callback,
zeroes the elapsed time, clears the blob reference and returns to `idle`;
otherwise it surfaces `data.error || 'Transcription failed'` and returns to
`idle`; a thrown fetch or parse error surfaces the generic failure
string. -/
def submitResponse (c : Comp) (r : FetchOutcome) : Comp × List String :=
  match r with
  | .failure =>
    ({ c with error := "Failed to process recording", state := .idle }, [])
  | .success status data =>
    if respOk status && jsTruthy data.normalized_text then
      ({ c with recordingTime := 0, audioBlob := none, state := .idle },
       [data.normalized_text.getD ""])
    else
      ({ c with error := jsOr data.error "Transcription failed",
                state := .idle }, [])

end Setu.VB

namespace Setu

/-- The response a Next.js route handler returns: a status code and the
JSON value of the body.  The JSON value is kept abstract as a string. -/
structure PublishOut where
  status : Nat
  body : String
deriving DecidableEq

/-- The header list the publish proxy builds for the backend request:
always `Content-Type: application/json`, plus the incoming `Authorization`
header when that header is truthy (`if (authHeader)`). -/
def publishHeaders (auth : Option String) : List (String × String) :=
  [("Content-Type", "application/json")] ++
    (match auth with
     | some v => if v ≠ "" then [("Authorization", v)] else []
     | none => [])

/-- The `POST` handler of `/api/publish/[id]`: forwards a `POST` with the
built headers to the backend (abstracted as a function from the forwarded
headers to its response) and returns the backend's parsed JSON body with
the backend's status code. -/
def publishPOST (auth : Option String)
    (backend : List (String × String) → PublishOut) : PublishOut :=
  let r := backend (publishHeaders auth)
  ⟨r.status, r.body⟩

/-- The multipart form data of a request to `/api/voice`: the `audio` field
(`File | null`) and the `language` field (`string | null`). -/
structure VoiceForm where
  audio : Option JsBlob
  language : Option String
deriving DecidableEq

/-- The request the voice proxy forwards to the backend transcription
API. -/
structure BackendCall where
  audio : JsBlob
  language : String
deriving DecidableEq

/-- The body of the voice proxy's response to the client: either the
backend's body passed through, or an `{ error: … }` object built by the
proxy. -/
inductive ProxyBody
  | passthrough (data : ApiBody)
  | errorBody (msg : String)
deriving DecidableEq

/-- The `POST` handler of `/api/voice`: with no `audio` field it returns
400 `{ error: 'No audio file provided' }` without calling the backend;
otherwise it forwards the audio and `language || 'auto'` to the backend
and, on an ok backend status, passes the backend body through with status
200, else answers with the backend status and
`{ error: data.detail || 'Transcription failed' }`.  The first component
of the result is the backend call made, if any. -/
def voicePOST (form : VoiceForm)
    (backend : BackendCall → Nat × ApiBody) :
    Option BackendCall × Nat × ProxyBody :=
  match form.audio with
  | none => (none, 400, .errorBody "No audio file provided")
  | some a =>
    let call : BackendCall := ⟨a, jsOr form.language "auto"⟩
    let resp := backend call
    if respOk resp.1 then
      (some call, 200, .passthrough resp.2)
    else
      (some call, resp.1, .errorBody (jsOr resp.2.detail "Transcription failed"))

/-- Stopping the recorder does not touch the chunk buffer (variant A). -/
theorem VA.stopRecording_audioChunks (c : VA.Comp) :
    (VA.stopRecording c).audioChunks = c.audioChunks := by
  unfold VA.stopRecording VA.clearTimer
  dsimp only
  repeat' split
  all_goals rfl

/-- Finishing the recording does not touch the chunk buffer (variant B). -/
theorem VB.finishRecording_audioChunks (c : VB.Comp) :
    (VB.finishRecording c).audioChunks = c.audioChunks := by
  unfold VB.finishRecording VB.clearTimer
  dsimp only
  repeat' split
  all_goals rfl

end Setu

namespace Setu

/-- C4: a submission whose response has status 200 and body
`{ normalized_text: "hello" }` invokes the `onTranscription` callback
exactly once with `"hello"`, and the session returns to `idle` reset
(blob reference cleared, elapsed time zeroed), in both recorder
variants. -/
theorem C4_success_invokes_callback_once_and_resets
    (c : VA.Comp) (cB : VB.Comp) :
    VA.submitResponse c (.success 200 ⟨some "hello", none, none⟩) =
      (VA.resetRecording c, ["hello"])
    ∧ (VA.resetRecording c).state = VA.RecState.idle
    ∧ (VA.resetRecording c).audioBlob = none
    ∧ (VA.resetRecording c).recordingTime = 0
    ∧ VB.submitResponse cB (.success 200 ⟨some "hello", none, none⟩) =
      ({ cB with recordingTime := 0, audioBlob := none, state := .idle },
       ["hello"]) :=
  ⟨rfl, rfl, rfl, rfl, rfl⟩

/-- C5: a submission whose response has status 500 and body
`{ error: "oops" }` surfaces `"oops"` as the displayed error, does not
invoke the callback, and in the review-capable variant returns to `review`
with the blob reference unchanged (variant B returns to `idle`, likewise
without touching the blob). -/
theorem C5_error_response_shows_message_no_callback
    (c : VA.Comp) (cB : VB.Comp) :
    VA.submitResponse c (.success 500 ⟨none, some "oops", none⟩) =
      ({ c with error := "oops", state := .review }, [])
    ∧ ({ c with error := "oops", state := VA.RecState.review }).audioBlob =
        c.audioBlob
    ∧ VB.submitResponse cB (.success 500 ⟨none, some "oops", none⟩) =
      ({ cB with error := "oops", state := .idle }, []) :=
  ⟨rfl, rfl, rfl⟩

/-- C9: when the assembled blob reference is null, `submitRecording`
returns at its guard in both variants: the component state is completely
unchanged (state, error, timer value included) and no request is sent, so
no response continuation can ever fire the callback. -/
theorem C9_null_blob_submit_is_noop (lang : Lang)
    (c : VA.Comp) (cB : VB.Comp)
    (h : c.audioBlob = none) (hB : cB.audioBlob = none) :
    VA.submitStart lang c = (c, none)
    ∧ VB.submitStart lang cB = (cB, none) := by
  constructor
  · unfold VA.submitStart
    rw [h]
  · unfold VB.submitStart
    rw [hB]

/-- C9 witness: the freshly mounted components have a null blob reference
and `submitRecording` is a no-op on them. -/
theorem C9_witness :
    VA.init.audioBlob = none
    ∧ VB.init.audioBlob = none
    ∧ (VA.submitStart .en VA.init = (VA.init, none)
       ∧ VB.submitStart .en VB.init = (VB.init, none)) :=
  ⟨rfl, rfl, C9_null_blob_submit_is_noop .en VA.init VB.init rfl rfl⟩

/-- C10: a request to the voice proxy whose form data has no `audio` field
is answered with status 400 and body `{ error: 'No audio file provided' }`,
and no call to the backend is made. -/
theorem C10_missing_audio_field_400_no_backend_call
    (lang : Option String) (backend : BackendCall → Nat × ApiBody) :
    voicePOST ⟨none, lang⟩ backend =
      (none, 400, .errorBody "No audio file provided") :=
  rfl

/-- C8: when the backend answers the voice proxy with a non-2xx status,
the proxy answers the client with the same status and body
`{ error: data.detail || 'Transcription failed' }`; the backend body's own
`error` field never reaches the client (the right-hand side does not
depend on it). -/
theorem C8_non2xx_forwards_status_and_detail
    (audio : JsBlob) (lang : Option String)
    (backend : BackendCall → Nat × ApiBody)
    (h : respOk (backend ⟨audio, jsOr lang "auto"⟩).1 = false) :
    voicePOST ⟨some audio, lang⟩ backend =
      (some ⟨audio, jsOr lang "auto"⟩,
       (backend ⟨audio, jsOr lang "auto"⟩).1,
       .errorBody (jsOr (backend ⟨audio, jsOr lang "auto"⟩).2.detail
         "Transcription failed")) := by
  simp only [voicePOST, h]
  rfl

/-- C8 witness: a backend that answers 500 with
`{ error: "oops", detail: "boom" }` is forwarded as status 500 with body
`{ error: "boom" }`. -/
theorem C8_witness :
    respOk (((fun _ => (500, (⟨none, some "oops", some "boom"⟩ : ApiBody)))
        (⟨⟨[1], "audio/webm"⟩, jsOr (some "en") "auto"⟩ : BackendCall)).1) = false
    ∧ voicePOST ⟨some ⟨[1], "audio/webm"⟩, some "en"⟩
        (fun _ => (500, (⟨none, some "oops", some "boom"⟩ : ApiBody))) =
      (some ⟨⟨[1], "audio/webm"⟩, "en"⟩, 500, .errorBody "boom") :=
  ⟨rfl,
   C8_non2xx_forwards_status_and_detail ⟨[1], "audio/webm"⟩ (some "en")
     (fun _ => (500, (⟨none, some "oops", some "boom"⟩ : ApiBody))) rfl⟩

/-- C1 counterexample: a full variant-A session — start, one data chunk,
stop, assemble, submit (a request is in flight), reset — and then the
response arrives with status 200 and `{ normalized_text: "hello" }`.  The
blob reference was cleared by the reset, yet the response continuation
still invokes the `onTranscription` callback, because the null-blob guard
of `submitRecording` runs before `await fetch`, not when the response
arrives.  This refutes the claim that the callback is not invoked. -/
theorem C1_counterexample :
    (VA.submitResponse
      (VA.resetRecording
        (VA.submitStart .en
          (VA.onstop "audio/webm;codecs=opus"
            (VA.stopRecording
              (VA.ondataavailable
                (VA.startRecording .en true (.ok ()) (fun _ => true) VA.init)
                ⟨[7, 7], ""⟩)))).1)
      (.success 200 ⟨some "hello", none, none⟩)).2 = ["hello"]
    ∧ (VA.resetRecording
        (VA.submitStart .en
          (VA.onstop "audio/webm;codecs=opus"
            (VA.stopRecording
              (VA.ondataavailable
                (VA.startRecording .en true (.ok ()) (fun _ => true) VA.init)
                ⟨[7, 7], ""⟩)))).1).audioBlob = none
    ∧ (VA.submitStart .en
        (VA.onstop "audio/webm;codecs=opus"
          (VA.stopRecording
            (VA.ondataavailable
              (VA.startRecording .en true (.ok ()) (fun _ => true) VA.init)
              ⟨[7, 7], ""⟩)))).2 ≠ none := by
  decide

/-- C1 (amended): resetting the session while a transcription request is in
flight does not suppress the callback.  The null-blob guard runs only when
`submitRecording` is entered, before the request is sent; the response
continuation never re-reads the blob reference, so a response arriving
after the reset with status 200 and a truthy `normalized_text` still
invokes `onTranscription` with that text (shown here for the text
`"hello"`, for any session state at arrival time — in particular a reset
one — in both variants). -/
theorem C1_late_response_after_reset_still_fires_callback
    (c : VA.Comp) (cB : VB.Comp) :
    ((VA.resetRecording c).audioBlob = none
     ∧ VA.submitResponse (VA.resetRecording c)
         (.success 200 ⟨some "hello", none, none⟩) =
       (VA.resetRecording (VA.resetRecording c), ["hello"]))
    ∧ (({ cB with audioBlob := none } : VB.Comp).audioBlob = none
       ∧ (VB.submitResponse { cB with audioBlob := none }
           (.success 200 ⟨some "hello", none, none⟩)).2 = ["hello"]) :=
  ⟨⟨rfl, rfl⟩, ⟨rfl, rfl⟩⟩

/-- C2 counterexample: with a probe that rejects every type in the
preference list, `startRecording` (after a granted permission) does not
stay idle: it creates a recorder with no explicit MIME type (modelled as
`''`, the value the loop variable keeps) and moves to `recording`, in both
variants.  This refutes the claim that capture is not started when no
listed type is supported. -/
theorem C2_counterexample :
    (VA.startRecording .en true (.ok ()) (fun _ => false) VA.init).state =
      VA.RecState.recording
    ∧ (VA.startRecording .en true (.ok ()) (fun _ => false) VA.init).mediaRecorder =
        some ⟨.recording, ""⟩
    ∧ (VB.startRecording .en true (.ok ()) (fun _ => false) VB.init).state =
        VB.RecState.recording
    ∧ (VB.startRecording .en true (.ok ()) (fun _ => false) VB.init).mediaRecorder =
        some ⟨.recording, ""⟩ := by
  decide

/-- C2 (amended): on a start request with permission granted,
`startRecording` selects the first MIME type of the ordered preference list
accepted by the supported-type probe (`List.find?` gives exactly the first
accepted element); when the probe rejects every listed type the recorder is
nevertheless created — with no explicit MIME type, leaving the browser
default — and the session moves to `recording`.  Holds in both
variants. -/
theorem C2_first_supported_mime_else_default_capture_starts
    (lang : Lang) (probe : String → Bool) (c : VA.Comp) (cB : VB.Comp) :
    (VA.startRecording lang true (.ok ()) probe c).state =
      VA.RecState.recording
    ∧ (VA.startRecording lang true (.ok ()) probe c).mediaRecorder =
        some ⟨.recording, (mimeTypes.find? probe).getD ""⟩
    ∧ (VB.startRecording lang true (.ok ()) probe cB).state =
        VB.RecState.recording
    ∧ (VB.startRecording lang true (.ok ()) probe cB).mediaRecorder =
        some ⟨.recording, (mimeTypes.find? probe).getD ""⟩ := by
  refine ⟨rfl, ?_, rfl, ?_⟩ <;> rw [← pickMime_eq_find] <;> rfl

/-- C3 (code-bug evaluation): after a successful start, the recorder error
handler returns the session to `idle` but clears neither the interval
timer nor the media stream: the timer reference is still set, one interval
is still live and the stream is still live.  Starting again from that state
yields two live intervals and two live streams at once, violating the
at-most-one invariant.  (Evaluated on variant A; variant B's `onerror` is
identical.) -/
theorem C3_error_exit_leaks_timer_and_stream :
    ((VA.onerror .en
        (VA.startRecording .en true (.ok ()) (fun _ => true) VA.init)).state =
      VA.RecState.idle
     ∧ (VA.onerror .en
         (VA.startRecording .en true (.ok ()) (fun _ => true) VA.init)).timerSet =
       true
     ∧ (VA.onerror .en
         (VA.startRecording .en true (.ok ()) (fun _ => true) VA.init)).liveTimers =
       1
     ∧ (VA.onerror .en
         (VA.startRecording .en true (.ok ()) (fun _ => true) VA.init)).liveStreams =
       1)
    ∧ (VA.startRecording .en true (.ok ()) (fun _ => true)
        (VA.onerror .en
          (VA.startRecording .en true (.ok ()) (fun _ => true) VA.init))).liveTimers =
      2
    ∧ (VA.startRecording .en true (.ok ()) (fun _ => true)
        (VA.onerror .en
          (VA.startRecording .en true (.ok ()) (fun _ => true) VA.init))).liveStreams =
      2 := by
  decide

/-- C6: when stop/finish is requested before any data-available event (the
chunk buffer is empty), every handler stays total and well-defined: the
chunk buffer is still empty after stopping, the assembled blob has zero
size (with type `mimeType || 'audio/webm'`), and the submission path sends
a request whose audio payload is the empty blob — in variant A via the
explicit submit action, in variant B via the auto-submitting `onstop`. -/
theorem C6_stop_before_data_empty_blob_no_crash
    (mime : String) (lang : Lang) (c : VA.Comp) (cB : VB.Comp)
    (h : c.audioChunks = []) (hB : cB.audioChunks = []) :
    (VA.onstop mime (VA.stopRecording c)).audioChunks = []
    ∧ (VA.onstop mime (VA.stopRecording c)).audioBlob =
        some ⟨[], if mime ≠ "" then mime else "audio/webm"⟩
    ∧ ((VA.onstop mime (VA.stopRecording c)).audioBlob.map JsBlob.size) =
        some 0
    ∧ (VA.submitStart lang (VA.onstop mime (VA.stopRecording c))).2 =
        some ⟨⟨[], if mime ≠ "" then mime else "audio/webm"⟩,
              "recording.webm", langCode lang⟩
    ∧ (VB.onstop mime lang (VB.finishRecording cB)).2 =
        some ⟨⟨[], if mime ≠ "" then mime else "audio/webm"⟩,
              "recording.webm", langCode lang⟩ := by
  have h1 : (VA.stopRecording c).audioChunks = [] := by
    rw [VA.stopRecording_audioChunks, h]
  have hB1 : (VB.finishRecording cB).audioChunks = [] := by
    rw [VB.finishRecording_audioChunks, hB]
  refine ⟨?_, ?_, ?_, ?_, ?_⟩
  · simp [VA.onstop, h1]
  · simp [VA.onstop, assembleBlob, h1]
  · simp [VA.onstop, assembleBlob, h1, JsBlob.size]
  · simp [VA.onstop, VA.submitStart, assembleBlob, h1]
  · simp [VB.onstop, VB.submitStart, assembleBlob, hB1]

/-- C6 witness: a freshly started session (empty chunk buffer) in each
variant, stopped with no data event, with no explicit MIME type found. -/
theorem C6_witness :
    (VA.startRecording .en true (.ok ()) (fun _ => true) VA.init).audioChunks = []
    ∧ (VB.startRecording .en true (.ok ()) (fun _ => true) VB.init).audioChunks = []
    ∧ ((VA.onstop ""
         (VA.stopRecording
           (VA.startRecording .en true (.ok ()) (fun _ => true) VA.init))).audioChunks = []
       ∧ (VA.onstop ""
           (VA.stopRecording
             (VA.startRecording .en true (.ok ()) (fun _ => true) VA.init))).audioBlob =
           some ⟨[], "audio/webm"⟩
       ∧ ((VA.onstop ""
            (VA.stopRecording
              (VA.startRecording .en true (.ok ()) (fun _ => true) VA.init))).audioBlob.map
            JsBlob.size) = some 0
       ∧ (VA.submitStart .en
           (VA.onstop ""
             (VA.stopRecording
               (VA.startRecording .en true (.ok ()) (fun _ => true) VA.init)))).2 =
           some ⟨⟨[], "audio/webm"⟩, "recording.webm", langCode .en⟩
       ∧ (VB.onstop "" .en
           (VB.finishRecording
             (VB.startRecording .en true (.ok ()) (fun _ => true) VB.init))).2 =
           some ⟨⟨[], "audio/webm"⟩, "recording.webm", langCode .en⟩) :=
  ⟨rfl, rfl,
   C6_stop_before_data_empty_blob_no_crash "" .en
     (VA.startRecording .en true (.ok ()) (fun _ => true) VA.init)
     (VB.startRecording .en true (.ok ()) (fun _ => true) VB.init) rfl rfl⟩

/-- C7 counterexample: an incoming request carrying an `Authorization`
header whose value is the empty string.  The header is present
(`isSome`), yet the forwarded header list contains only `Content-Type`:
the `if (authHeader)` truthiness test drops it, refuting the "if and only
if it is present" claim. -/
theorem C7_counterexample :
    (some "" : Option String).isSome = true
    ∧ (publishHeaders (some "")).map Prod.fst = ["Content-Type"] := by
  decide

/-- C7 (amended): the publish proxy passes the backend's parsed JSON body
and status code through unchanged, and the forwarded request carries the
incoming `Authorization` header if and only if that header is present with
a non-empty value (JavaScript truthiness of the header string). -/
theorem C7_passthrough_and_truthy_auth_forwarding
    (auth : Option String)
    (backend : List (String × String) → PublishOut) :
    publishPOST auth backend = backend (publishHeaders auth)
    ∧ (∀ v, ("Authorization", v) ∈ publishHeaders auth ↔
        (auth = some v ∧ v ≠ "")) := by
  refine ⟨rfl, fun v => ?_⟩
  cases auth with
  | none => simp [publishHeaders]
  | some a =>
    by_cases h : a = ""
    · subst h
      simp [publishHeaders]
      exact fun h1 => h1.symm
    · simp [publishHeaders, h]
      exact ⟨fun hv => ⟨hv.symm, by rw [hv]; exact h⟩, fun hav => hav.1.symm⟩

end Setu


